import Mathlib

/-!
Verification of the plotting-mcp dispatch core against its specification.

The repository's `generate_plot` tool (src/plotting_mcp/server.py and
src/plotting_mcp/cloud.py) decodes a JSON options string, parses CSV text
into a table, dispatches to one of four renderers via `plot_to_bytes`, and
wraps the PNG bytes in a (TextContent, ImageContent) pair.  The tool wrappers
are embedded here directly from the source; the plotting core
(`plot_to_bytes` and its renderers, in the repository's plot.py which is not
among the provided sources) and the external decoders (Python's `json.loads`,
pandas' `read_csv`) are modelled from the specification's contracts.
-/

namespace PlottingMcp

/-- Error taxonomy of the specification (section 7), used as the embedding's
failure type.  `kwargsTypeError` stands for the Python `TypeError` raised when
a decoded non-mapping value is expanded with `**` at the `plot_to_bytes` call
site; the payload names the offending JSON value's Python type. -/
inductive Err where
  | malformedInputError (msg : String)
  | invalidOptionsError (msg : String)
  | unsupportedPlotKindError (kind : String)
  | columnNotFoundError (col : String)
  | missingCoordinateColumnsError
  | ambiguousShapeError
  | invalidValueError (msg : String)
  | kwargsTypeError (pyType : String)
  deriving DecidableEq, Repr

/-- An exact (not necessarily reduced) fraction `num / den` with positive
denominator: the embedding's number type for decimal data (JSON numbers and
numeric CSV cells). -/
structure Frac where
  num : Int
  den : Nat
  deriving DecidableEq, Repr

/-- The fraction `n / 1`. -/
def Frac.ofNat (n : Nat) : Frac := ⟨n, 1⟩

/-- Negation of a fraction. -/
def Frac.neg (a : Frac) : Frac := ⟨-a.num, a.den⟩

/-- Addition of fractions by cross-multiplication. -/
def Frac.add (a b : Frac) : Frac :=
  ⟨a.num * b.den + b.num * a.den, a.den * b.den⟩

/-- Strictly positive fraction (the denominator is positive by
construction). -/
def Frac.isPos (a : Frac) : Bool := 0 < a.num

/-- Fraction within the closed unit interval `[0, 1]`. -/
def Frac.inUnit (a : Frac) : Bool := 0 ≤ a.num && a.num ≤ (a.den : Int)

/-- JSON values as decoded by Python's `json.loads`: objects become dicts
(here association lists in source order), arrays become lists, numbers become
exact fractions. -/
inductive Json where
  | null : Json
  | bool (b : Bool) : Json
  | num (q : Frac) : Json
  | str (s : String) : Json
  | arr (xs : List Json) : Json
  | obj (fields : List (String × Json)) : Json

/-- The Python type name `json.loads` produces for each JSON value, as it
would appear in the `TypeError` message of a failed `**` expansion. -/
def jsonPyType : Json → String
  | .null => "NoneType"
  | .bool _ => "bool"
  | .num _ => "float"
  | .str _ => "str"
  | .arr _ => "list"
  | .obj _ => "dict"

/-- True exactly when the JSON value is an object (a Python mapping). -/
def Json.isObj : Json → Bool
  | .obj _ => true
  | _ => false

/-! ### JSON decoding

Modelled from the spec: the options string "arrives as a serialized JSON-like
structure and must be decoded before use" (section 4.2); the decoder is
Python's `json.loads`, whose source is outside this repository.  The model
below implements the RFC 8259 grammar restricted to what the tool's inputs
exercise: numbers without exponents and string escapes without `\uXXXX`. -/

def jsonWs (c : Char) : Bool :=
  c = ' ' || c = '\t' || c = '\n' || c = '\r'

def skipWs : List Char → List Char
  | [] => []
  | c :: cs => if jsonWs c then skipWs cs else c :: cs

/-- Decode one JSON string body (after the opening quote), returning the
decoded text and the input remaining after the closing quote. -/
def parseJStr : List Char → Option (String × List Char)
  | [] => none
  | '"' :: rest => some ("", rest)
  | '\\' :: e :: rest => do
      let esc ← match e with
        | '"' => some '"'
        | '\\' => some '\\'
        | '/' => some '/'
        | 'n' => some '\n'
        | 't' => some '\t'
        | 'r' => some '\r'
        | 'b' => some (Char.ofNat 8)
        | 'f' => some (Char.ofNat 12)
        | _ => none
      let (s, rem) ← parseJStr rest
      some (String.mk (esc :: s.data), rem)
  | '\\' :: [] => none
  | c :: rest => do
      let (s, rem) ← parseJStr rest
      some (String.mk (c :: s.data), rem)

def digitVal (c : Char) : Nat := c.toNat - '0'.toNat

def takeDigits : List Char → List Char × List Char
  | [] => ([], [])
  | c :: cs =>
    if c.isDigit then
      let (ds, rest) := takeDigits cs
      (c :: ds, rest)
    else ([], c :: cs)

def digitsToNat (ds : List Char) : Nat :=
  ds.foldl (fun acc c => acc * 10 + digitVal c) 0

/-- Decode a JSON number (integer part and optional fraction; exponents are
not modelled) into an exact fraction. -/
def parseJNum (input : List Char) : Option (Frac × List Char) :=
  let (neg, rest) :=
    match input with
    | '-' :: cs => (true, cs)
    | cs => (false, cs)
  match takeDigits rest with
  | ([], _) => none
  | (intDs, afterInt) =>
    let (mag, afterNum) :=
      match afterInt with
      | '.' :: cs =>
        match takeDigits cs with
        | ([], _) => (none, afterInt)
        | (fracDs, afterFrac) =>
          (some (⟨digitsToNat (intDs ++ fracDs), 10 ^ fracDs.length⟩ : Frac),
           afterFrac)
      | cs => (some (Frac.ofNat (digitsToNat intDs)), cs)
    match mag with
    | none => none
    | some m => some ((if neg then m.neg else m), afterNum)

/-- The opening-brace character, `'\x7b'`. -/
def lbraceChar : Char := Char.ofNat 123

/-- The closing-brace character, `'\x7d'`. -/
def rbraceChar : Char := Char.ofNat 125

mutual

/-- Decode one JSON value from the head of the input; fuel bounds recursion. -/
def parseJVal : Nat → List Char → Option (Json × List Char)
  | 0, _ => none
  | fuel + 1, input =>
    match skipWs input with
    | 'n' :: 'u' :: 'l' :: 'l' :: rest => some (.null, rest)
    | 't' :: 'r' :: 'u' :: 'e' :: rest => some (.bool true, rest)
    | 'f' :: 'a' :: 'l' :: 's' :: 'e' :: rest => some (.bool false, rest)
    | '"' :: rest => (parseJStr rest).map (fun p => (.str p.1, p.2))
    | '[' :: rest =>
        (match skipWs rest with
         | ']' :: rem => some (.arr [], rem)
         | other => (parseJItems fuel other).map (fun p => (.arr p.1, p.2)))
    | c :: rest =>
        if c = lbraceChar then
          (match skipWs rest with
           | [] => none
           | d :: rem =>
             if d = rbraceChar then some (.obj [], rem)
             else (parseJFields fuel (d :: rem)).map (fun p => (.obj p.1, p.2)))
        else (parseJNum (c :: rest)).map (fun p => (.num p.1, p.2))
    | [] => none

/-- Decode a comma-separated list of values up to the closing bracket. -/
def parseJItems : Nat → List Char → Option (List Json × List Char)
  | 0, _ => none
  | fuel + 1, input => do
    let (v, rem) ← parseJVal fuel input
    match skipWs rem with
    | ',' :: rest => do
        let (vs, rem2) ← parseJItems fuel rest
        some (v :: vs, rem2)
    | ']' :: rest => some ([v], rest)
    | _ => none

/-- Decode a comma-separated list of string-keyed fields up to the closing
brace. -/
def parseJFields : Nat → List Char → Option (List (String × Json) × List Char)
  | 0, _ => none
  | fuel + 1, input =>
    match skipWs input with
    | '"' :: rest =>
      (do
        let (k, rem) ← parseJStr rest
        match skipWs rem with
        | ':' :: rest2 => do
            let (v, rem2) ← parseJVal fuel rest2
            (match skipWs rem2 with
             | ',' :: rest3 => do
                 let (fs, rem3) ← parseJFields fuel rest3
                 some ((k, v) :: fs, rem3)
             | [] => none
             | d :: rest3 =>
                 if d = rbraceChar then some ([(k, v)], rest3) else none)
        | _ => none)
    | _ => none

end

/-- Modelled from the spec: JSON decoding as performed by Python's
`json.loads` in `generate_plot` (sections 4.2 and 7 of the spec); `json.loads`
itself is standard-library code outside this repository.  Decodes one JSON
document; trailing non-whitespace is an error, as is any undecodable input
(Python's `json.JSONDecodeError`). -/
def jsonLoads (s : String) : Except String Json :=
  match parseJVal (2 * s.length + 2) s.data with
  | none => .error "Expecting value"
  | some (v, rem) =>
    match skipWs rem with
    | [] => .ok v
    | _ => .error "Extra data"

/-! ### Table parsing

Modelled from the spec: the Table Parser contract of section 4.1.  In the
repository the parse step is `pd.read_csv(io.StringIO(csv_data))` (server.py
line 70), whose implementation is outside this repository; the spec's
contract is: comma-delimited, first line is the header, quoted fields
respected, per-column type inference (numeric, then date/time, then text),
`MalformedInputError` on empty text, duplicate header names, or row lengths
disagreeing with the header (strict-rejection policy chosen, as the spec
permits). -/

/-- Split one CSV record into fields: commas separate fields outside quotes,
a `"` toggles the quoted state.  Arguments: remaining input, inside-quotes
flag, field accumulated so far. -/
def splitRecordAux : List Char → Bool → String → List String
  | [], _, cur => [cur]
  | c :: cs, inQ, cur =>
    if c = '"' then splitRecordAux cs (!inQ) cur
    else if c = ',' && !inQ then cur :: splitRecordAux cs false ""
    else splitRecordAux cs inQ (cur.push c)

/-- The fields of one CSV record line. -/
def csvFields (line : String) : List String := splitRecordAux line.data false ""

/-- Split a character list on a separator character; like Python's
`str.split`, `n + 1` chunks for `n` separators. -/
def splitOnChar (sep : Char) : List Char → List (List Char)
  | [] => [[]]
  | c :: cs =>
    if c = sep then [] :: splitOnChar sep cs
    else
      match splitOnChar sep cs with
      | [] => [[c]]
      | h :: t => (c :: h) :: t

/-- Drop one trailing carriage return, tolerating `\r\n` line endings. -/
def stripCr (l : List Char) : List Char :=
  match l.reverse with
  | '\r' :: rest => rest.reverse
  | _ => l

/-- The record lines of a CSV text: split on newline, tolerate `\r\n`
line endings, and skip blank lines. -/
def csvLines (s : String) : List String :=
  (((splitOnChar '\n' s.data).map (fun l => String.mk (stripCr l)))).filter
    (fun l => l ≠ "")

/-- A parsed table: the unique column names from the header row, and the
data rows (each a list of raw cell texts, one per column). -/
structure Table where
  header : List String
  rows : List (List String)
  deriving DecidableEq, Repr

/-- A list of names with at least one duplicate. -/
def hasDupStr : List String → Bool
  | [] => false
  | x :: xs => xs.contains x || hasDupStr xs

/-- Modelled from the spec: `parse(csv_text) -> Table` of section 4.1, the
contract of the `pd.read_csv` call in `generate_plot`. -/
def parseCsv (s : String) : Except Err Table :=
  match csvLines s with
  | [] => .error (.malformedInputError "no columns to parse from file")
  | h :: rs =>
    let header := csvFields h
    let rows := rs.map csvFields
    if hasDupStr header then .error (.malformedInputError "duplicate column names")
    else if rows.all (fun r => r.length = header.length) then .ok ⟨header, rows⟩
    else .error (.malformedInputError "row length does not match header")

/-- Strip leading and trailing whitespace from a character list. -/
def trimChars (l : List Char) : List Char :=
  ((l.dropWhile jsonWs).reverse.dropWhile jsonWs).reverse

/-- Parse a cell as an exact decimal number (optional sign, digits, optional
fraction), the numeric-type test of the parser's type inference. -/
def parseNumber (s : String) : Option Frac :=
  let body :=
    match trimChars s.data with
    | '+' :: cs => cs
    | cs => cs
  match parseJNum body with
  | some (q, []) => some q
  | _ => none

/-- A cell in ISO `YYYY-MM-DD` shape, the date-type test of the parser's
type inference. -/
def isDateCell (s : String) : Bool :=
  match trimChars s.data with
  | [a, b, c, d, '-', e, f, '-', g, h] =>
    [a, b, c, d, e, f, g, h].all Char.isDigit
  | _ => false

/-- Inferred scalar type of a column (spec section 3). -/
inductive ColType where
  | numeric | temporal | text
  deriving DecidableEq, Repr

/-- Infer a column's type from its cells: numeric parse first, then
date/time, falling back to text (spec section 4.1). -/
def colType (cells : List String) : ColType :=
  if !cells.isEmpty && cells.all (fun c => (parseNumber c).isSome) then .numeric
  else if !cells.isEmpty && cells.all isDateCell then .temporal
  else .text

/-- The cells of column `i`, one per row. -/
def colCells (t : Table) (i : Nat) : List String :=
  t.rows.map (fun r => r.getD i "")

/-- Index of the first column whose inferred type is `ct`, in table column
order. -/
def firstColOfType (t : Table) (ct : ColType) : Option Nat :=
  (List.range t.header.length).find? (fun i => colType (colCells t i) == ct)

/-! ### Options access -/

/-- Look up a key in a decoded options bag.  JSON objects become Python
dicts, where a duplicated key keeps its last value, hence the reversed
search. -/
def optLookup (opts : List (String × Json)) (k : String) : Option Json :=
  (opts.reverse.find? (fun p => p.1 == k)).map Prod.snd

/-- Read a numeric option with a default; a value of any other shape keeps
the default (the spec constrains only `alpha`'s domain). -/
def getNumOpt (opts : List (String × Json)) (k : String) (dflt : Frac) : Frac :=
  match optLookup opts k with
  | some (Json.num q) => q
  | _ => dflt

/-- Read a string option with a default. -/
def getStrOptD (opts : List (String × Json)) (k : String) (dflt : String) :
    String :=
  match optLookup opts k with
  | some (Json.str s) => s
  | _ => dflt

/-! ### Renderers

Modelled from the spec: sections 4.3 (line/bar), 4.4 (pie) and 4.5
(world-map); the renderer functions live in the repository's plot.py, which
is not among the provided sources.  Open points the spec leaves to the
implementer are resolved here as documented on each definition. -/

/-- A rendered figure, the drawable content each renderer produces before
PNG encoding. -/
inductive Figure where
  | line (series : List (String × List (String × String))) : Figure
  | bar (bars : List (String × Frac)) : Figure
  | pie (slices : List (String × Frac)) : Figure
  | worldmap (points : List (Frac × Frac)) (size : Frac) (color : String)
      (alpha : Frac) (marker : String) : Figure
  deriving DecidableEq, Repr

/-- Distinct values in first-occurrence order (`seen` accumulates values
already emitted). -/
def dedupAux : List String → List String → List String
  | [], _ => []
  | x :: xs, seen =>
    if x ∈ seen then dedupAux xs seen else x :: dedupAux xs (x :: seen)

/-- Distinct values of a list in first-occurrence order. -/
def dedupKeepFirst (l : List String) : List String := dedupAux l []

/-- Resolve the `x`/`y` option to a column name.  An explicit name absent
from the table fails with `ColumnNotFoundError`; a non-string value is out
of the option's domain (`InvalidOptionsError`, spec section 7).  When the
option is absent the deterministic default rule is the spec's suggested one
(section 3.9): the first two columns in table order, failing with
`ColumnNotFoundError` when the table has no such column. -/
def resolveAxisCol (t : Table) (opts : List (String × Json)) (key : String)
    (defaultIdx : Nat) : Except Err String :=
  match optLookup opts key with
  | some (Json.str name) =>
    if name ∈ t.header then .ok name else .error (.columnNotFoundError name)
  | some _ => .error (.invalidOptionsError key)
  | none =>
    match t.header.get? defaultIdx with
    | some name => .ok name
    | none => .error (.columnNotFoundError key)

/-- Resolve the optional `hue` option to a column name. -/
def resolveHueCol (t : Table) (opts : List (String × Json)) :
    Except Err (Option String) :=
  match optLookup opts "hue" with
  | none => .ok none
  | some (Json.str name) =>
    if name ∈ t.header then .ok (some name)
    else .error (.columnNotFoundError name)
  | some _ => .error (.invalidOptionsError "hue")

/-- The (x, y) cell pairs of the selected rows, in row order. -/
def seriesFor (t : Table) (xName yName : String)
    (rowsSel : List (List String)) : List (String × String) :=
  let xi := t.header.indexOf xName
  let yi := t.header.indexOf yName
  rowsSel.map (fun r => (r.getD xi "", r.getD yi ""))

/-- Modelled from the spec: line renderer of section 4.3 — one connected
polyline per `hue` group in raw row order. -/
def renderLine (t : Table) (opts : List (String × Json)) : Except Err Figure := do
  let xName ← resolveAxisCol t opts "x" 0
  let yName ← resolveAxisCol t opts "y" 1
  let hue ← resolveHueCol t opts
  match hue with
  | none => .ok (.line [("", seriesFor t xName yName t.rows)])
  | some hName =>
    let hi := t.header.indexOf hName
    let groups := dedupKeepFirst (t.rows.map (fun r => r.getD hi ""))
    .ok (.line (groups.map (fun g =>
      (g, seriesFor t xName yName
          (t.rows.filter (fun r => r.getD hi "" == g))))))

/-- Arithmetic mean of fractions, 0 for an empty list. -/
def fracMean (l : List Frac) : Frac :=
  if l.isEmpty then ⟨0, 1⟩
  else
    let s := l.foldl Frac.add ⟨0, 1⟩
    ⟨s.num, s.den * l.length⟩

/-- Modelled from the spec: bar renderer of section 4.3 — one bar per
distinct `x` value (per `hue` group when given), height the mean of the
parsed `y` values sharing that `x` (the spec's suggested default
aggregation). -/
def renderBar (t : Table) (opts : List (String × Json)) : Except Err Figure := do
  let xName ← resolveAxisCol t opts "x" 0
  let yName ← resolveAxisCol t opts "y" 1
  let hue ← resolveHueCol t opts
  let xi := t.header.indexOf xName
  let yi := t.header.indexOf yName
  let mkBars := fun (label : String) (rowsSel : List (List String)) =>
    (dedupKeepFirst (rowsSel.map (fun r => r.getD xi ""))).map
      (fun v => (label ++ v,
        fracMean ((rowsSel.filter (fun r => r.getD xi "" == v)).filterMap
          (fun r => parseNumber (r.getD yi "")))))
  match hue with
  | none => .ok (.bar (mkBars "" t.rows))
  | some hName =>
    let hi := t.header.indexOf hName
    let groups := dedupKeepFirst (t.rows.map (fun r => r.getD hi ""))
    .ok (.bar ((groups.map (fun g =>
      mkBars (g ++ "/") (t.rows.filter (fun r => r.getD hi "" == g)))).flatten))

/-- The parsed numeric values of column `vi`, one per row (0 for a cell
that fails the numeric parse; on a numeric-typed column every cell
parses). -/
def pieValues (t : Table) (vi : Nat) : List Frac :=
  (colCells t vi).map (fun c => (parseNumber c).getD (Frac.ofNat 0))

/-- Modelled from the spec: pie renderer of section 4.4 — first text column
as labels and first numeric column as values (`AmbiguousShapeError` when
either is missing); negative or zero values rejected with
`InvalidValueError`; one slice per row in row order. -/
def renderPie (t : Table) (_opts : List (String × Json)) : Except Err Figure :=
  match firstColOfType t .text, firstColOfType t .numeric with
  | some li, some vi =>
    let labels := colCells t li
    let vals := pieValues t vi
    if vals.all Frac.isPos then .ok (.pie (labels.zip vals))
    else .error (.invalidValueError "pie slice values must be positive")
  | _, _ => .error .ambiguousShapeError

/-- Latitude column aliases, in priority order (spec section 4.5). -/
def latAliases : List String := ["lat", "latitude", "y"]

/-- Longitude column aliases, in priority order (spec section 4.5). -/
def lonAliases : List String := ["lon", "lng", "long", "longitude", "x"]

/-- ASCII lower-casing of one character. -/
def lowerChar (c : Char) : Char :=
  if 'A' <= c && c <= 'Z' then Char.ofNat (c.toNat + 32) else c

/-- ASCII lower-casing of a string, the case-insensitive comparison used in
coordinate-column resolution. -/
def lowerStr (s : String) : String := String.mk (s.data.map lowerChar)

/-- First alias (in alias-list priority order) that matches a column name
case-insensitively, resolved to the matching column's actual name. -/
def findCoord (aliases : List String) (cols : List String) : Option String :=
  aliases.findSome? (fun a => cols.find? (fun c => lowerStr c == a))

/-- Validate the `alpha` option: default 0.7, must lie in `[0, 1]` else
`InvalidOptionsError` (spec section 4.5). -/
def getAlpha (opts : List (String × Json)) : Except Err Frac :=
  match optLookup opts "alpha" with
  | none => .ok ⟨7, 10⟩
  | some (Json.num q) =>
    if q.inUnit then .ok q
    else .error (.invalidOptionsError "alpha must be between 0 and 1")
  | some _ => .error (.invalidOptionsError "alpha must be between 0 and 1")

/-- Modelled from the spec: world-map renderer of section 4.5 — coordinate
columns resolved by alias priority (`MissingCoordinateColumnsError` when
either is unresolved), one marker per row whose coordinates both parse
numerically (others skipped silently), options `s`/`c`/`alpha`/`marker`
with their documented defaults. -/
def renderWorldmap (t : Table) (opts : List (String × Json)) :
    Except Err Figure :=
  match findCoord latAliases t.header, findCoord lonAliases t.header with
  | some latCol, some lonCol => do
    let alpha ← getAlpha opts
    let lati := t.header.indexOf latCol
    let loni := t.header.indexOf lonCol
    let pts := t.rows.filterMap (fun r =>
      match parseNumber (r.getD lati ""), parseNumber (r.getD loni "") with
      | some la, some lo => some (la, lo)
      | _, _ => none)
    .ok (.worldmap pts (getNumOpt opts "s" (Frac.ofNat 50)) (getStrOptD opts "c" "red")
      alpha (getStrOptD opts "marker" "o"))
  | _, _ => .error .missingCoordinateColumnsError

/-! ### Encoder and dispatcher -/

/-- Length-prefixed byte encoding of a string (code points as bytes). -/
def strEnc (s : String) : List Nat := s.length :: s.data.map Char.toNat

/-- Sign-and-magnitude byte encoding of an integer. -/
def intEnc (i : Int) : List Nat := [if i < 0 then 1 else 0, i.natAbs]

/-- Byte encoding of a fraction as numerator and denominator. -/
def fracEnc (q : Frac) : List Nat := intEnc q.num ++ [q.den]

/-- Length-prefixed encoding of a list. -/
def listEnc (f : α → List Nat) (l : List α) : List Nat :=
  l.length :: (l.map f).flatten

/-- Encoding of a pair. -/
def pairEnc (f : α → List Nat) (g : β → List Nat) (p : α × β) : List Nat :=
  f p.1 ++ g p.2

/-- Deterministic byte serialization of a figure's drawable content. -/
def figureEnc : Figure → List Nat
  | .line series =>
    0 :: listEnc (pairEnc strEnc (listEnc (pairEnc strEnc strEnc))) series
  | .bar bars => 1 :: listEnc (pairEnc strEnc fracEnc) bars
  | .pie slices => 2 :: listEnc (pairEnc strEnc fracEnc) slices
  | .worldmap pts size color alpha marker =>
    3 :: listEnc (pairEnc fracEnc fracEnc) pts ++ fracEnc size ++ strEnc color
      ++ fracEnc alpha ++ strEnc marker

/-- The eight PNG signature bytes. -/
def pngSignature : List Nat := [137, 80, 78, 71, 13, 10, 26, 10]

/-- Modelled from the spec: encoder of section 4.6 — deterministic PNG
serialization of the figure (PNG signature followed by the figure's
content bytes; rasterization itself is outside a shallow embedding). -/
def encodePng (fig : Figure) : List Nat := pngSignature ++ figureEnc fig

/-- Modelled from the spec: `plot_to_bytes`, the plot dispatcher of section
4.2 (repository file plot.py, not among the provided sources) — a pure,
case-sensitive mapping from `kind` to one of the four renderers followed by
PNG encoding; any other kind fails with `UnsupportedPlotKindError` naming
the received value, with no fallback kind. -/
def plot_to_bytes (t : Table) (kind : String) (opts : List (String × Json)) :
    Except Err (List Nat) :=
  match kind with
  | "line" => (renderLine t opts).map encodePng
  | "bar" => (renderBar t opts).map encodePng
  | "pie" => (renderPie t opts).map encodePng
  | "worldmap" => (renderWorldmap t opts).map encodePng
  | k => .error (.unsupportedPlotKindError k)

/-! ### Base64 and the tool wrappers

From here on the definitions are embedded directly from the provided
sources src/plotting_mcp/server.py and src/plotting_mcp/cloud.py (the
`generate_plot` tool bodies), except `b64encode`, which models Python's
standard `base64.b64encode` (RFC 4648). -/

/-- The 64-character base64 alphabet. -/
def base64Alphabet : List Char :=
  "ABCDEFGHIJKLMNOPQRSTUVWXYZabcdefghijklmnopqrstuvwxyz0123456789+/".data

/-- The base64 digit for a 6-bit value. -/
def b64Char (n : Nat) : Char := base64Alphabet.getD n 'A'

/-- Base64-encode a byte list three bytes at a time, `=`-padding the final
group (RFC 4648, as `base64.b64encode` does). -/
def base64Chunks : List Nat → List Char
  | [] => []
  | [a] =>
    let a := a % 256
    [b64Char (a / 4), b64Char (a % 4 * 16), '=', '=']
  | [a, b] =>
    let a := a % 256
    let b := b % 256
    [b64Char (a / 4), b64Char (a % 4 * 16 + b / 16), b64Char (b % 16 * 4), '=']
  | a :: b :: c :: rest =>
    let a := a % 256
    let b := b % 256
    let c := c % 256
    b64Char (a / 4) :: b64Char (a % 4 * 16 + b / 16) ::
      b64Char (b % 16 * 4 + c / 64) :: b64Char (c % 64) :: base64Chunks rest

/-- `base64.b64encode(bytes).decode()`: the base64 text of a byte list. -/
def b64encode (bytes : List Nat) : String := String.mk (base64Chunks bytes)

/-- `mcp.types.TextContent` as `generate_plot` constructs it. -/
structure TextContent where
  type : String
  text : String
  deriving DecidableEq, Repr

/-- `mcp.types.ImageContent` as `generate_plot` constructs it. -/
structure ImageContent where
  type : String
  data : String
  mimeType : String
  deriving DecidableEq, Repr

/-- The options-decode step of `generate_plot` (server.py lines 60-67): the
exact string "None" is the no-options sentinel yielding an empty bag; any
other string goes through the JSON decoder, whose failure propagates (the
spec's `InvalidOptionsError`). -/
def decodeKwargs (json_kwargs : String) : Except Err Json :=
  if json_kwargs ≠ "None" then
    match jsonLoads json_kwargs with
    | .ok v => .ok v
    | .error m => .error (.invalidOptionsError m)
  else .ok (.obj [])

/-- The `**kwargs` expansion at the `plot_to_bytes(df, plot_type, **kwargs)`
call (server.py line 72): a decoded mapping yields its fields; any other
decoded value raises Python's `TypeError` for a non-mapping after `**`. -/
def expandKwargs : Json → Except Err (List (String × Json))
  | .obj fields => .ok fields
  | j => .error (.kwargsTypeError (jsonPyType j))

namespace Server

/-- The `generate_plot` tool of src/plotting_mcp/server.py (lines 29-90):
decode the options string ("None" meaning no options), parse the CSV,
expand the options as keyword arguments into `plot_to_bytes`, and wrap the
returned PNG bytes as (TextContent, ImageContent) with the data
base64-encoded; every failure propagates to the caller. -/
def generate_plot (csv_data plot_type json_kwargs : String) :
    Except Err (TextContent × ImageContent) := do
  let kwargs ← decodeKwargs json_kwargs
  let df ← parseCsv csv_data
  let opts ← expandKwargs kwargs
  let plot_bytes ← plot_to_bytes df plot_type opts
  pure (⟨"text", "Plot generated successfully"⟩,
        ⟨"image", b64encode plot_bytes, "image/png"⟩)

end Server

namespace Cloud

/-- The `generate_plot` tool of src/plotting_mcp/cloud.py (lines 29-90),
transcribed from that file; its body is textually identical to the
server.py tool. -/
def generate_plot (csv_data plot_type json_kwargs : String) :
    Except Err (TextContent × ImageContent) := do
  let kwargs ← decodeKwargs json_kwargs
  let df ← parseCsv csv_data
  let opts ← expandKwargs kwargs
  let plot_bytes ← plot_to_bytes df plot_type opts
  pure (⟨"text", "Plot generated successfully"⟩,
        ⟨"image", b64encode plot_bytes, "image/png"⟩)

end Cloud

/-- The first failing stage of a `generate_plot` call, in the order the
stages run in the source: options decode, CSV parse, keyword-argument
expansion, render-and-encode; `none` when every stage succeeds. -/
def firstFailure (csv_data plot_type json_kwargs : String) : Option Err :=
  match decodeKwargs json_kwargs with
  | .error e => some e
  | .ok kwargs =>
    match parseCsv csv_data with
    | .error e => some e
    | .ok df =>
      match expandKwargs kwargs with
      | .error e => some e
      | .ok opts =>
        match plot_to_bytes df plot_type opts with
        | .error e => some e
        | .ok _ => none

deriving instance DecidableEq for Except

/-! ### Theorems -/

/-- Bind on a succeeded `Except` continues with the value. -/
theorem exceptBind_ok {ε α β : Type} (a : α) (f : α → Except ε β) :
    (Except.ok a >>= f : Except ε β) = f a := rfl

/-- Bind on a failed `Except` keeps the failure. -/
theorem exceptBind_error {ε α β : Type} (e : ε) (f : α → Except ε β) :
    (Except.error e >>= f : Except ε β) = Except.error e := rfl

/-- `generate_plot` runs its four stages in source order, stopping at the
first failure. -/
theorem generate_plot_stages (c k o : String) :
    Server.generate_plot c k o =
      match decodeKwargs o with
      | .error e => .error e
      | .ok kwargs =>
        match parseCsv c with
        | .error e => .error e
        | .ok df =>
          match expandKwargs kwargs with
          | .error e => .error e
          | .ok opts =>
            match plot_to_bytes df k opts with
            | .error e => .error e
            | .ok plot_bytes =>
              .ok (⟨"text", "Plot generated successfully"⟩,
                   ⟨"image", b64encode plot_bytes, "image/png"⟩) := by
  cases h1 : decodeKwargs o with
  | error e => simp [Server.generate_plot, h1, Bind.bind, Except.bind]
  | ok kwargs =>
    cases h2 : parseCsv c with
    | error e => simp [Server.generate_plot, h1, h2, Bind.bind, Except.bind]
    | ok df =>
      cases h3 : expandKwargs kwargs with
      | error e =>
        simp [Server.generate_plot, h1, h2, h3, Bind.bind, Except.bind]
      | ok opts =>
        cases h4 : plot_to_bytes df k opts with
        | error e =>
          simp [Server.generate_plot, h1, h2, h3, h4, Bind.bind, Except.bind,
            pure, Except.pure]
        | ok plot_bytes =>
          simp [Server.generate_plot, h1, h2, h3, h4, Bind.bind, Except.bind,
            pure, Except.pure]

/-- C1: on every input where `generate_plot` succeeds, the result is the
pair of the fixed text status message and an image object whose mimeType is
exactly "image/png" and whose data is the base64 encoding of the PNG bytes
the renderer returned. -/
theorem generate_plot_success_shape (c k o : String)
    (r : TextContent × ImageContent)
    (h : Server.generate_plot c k o = Except.ok r) :
    ∃ df opts plot_bytes,
      parseCsv c = Except.ok df ∧
      plot_to_bytes df k opts = Except.ok plot_bytes ∧
      r = (⟨"text", "Plot generated successfully"⟩,
           ⟨"image", b64encode plot_bytes, "image/png"⟩) := by
  unfold Server.generate_plot at h
  cases h1 : decodeKwargs o with
  | error e => rw [h1, exceptBind_error] at h; simp at h
  | ok kwargs =>
    rw [h1, exceptBind_ok] at h
    cases h2 : parseCsv c with
    | error e => rw [h2, exceptBind_error] at h; simp at h
    | ok df =>
      rw [h2, exceptBind_ok] at h
      cases h3 : expandKwargs kwargs with
      | error e => rw [h3, exceptBind_error] at h; simp at h
      | ok opts =>
        rw [h3, exceptBind_ok] at h
        cases h4 : plot_to_bytes df k opts with
        | error e => rw [h4, exceptBind_error] at h; simp at h
        | ok plot_bytes =>
          rw [h4, exceptBind_ok] at h
          simp only [pure, Except.pure, Except.ok.injEq] at h
          exact ⟨df, opts, plot_bytes, rfl, h4, h.symm⟩

/-- Witness for C1 at a concrete successful call. -/
theorem generate_plot_success_shape_witness :
    ∃ df opts plot_bytes,
      parseCsv "a,b\n1,2\n3,4" = Except.ok df ∧
      plot_to_bytes df "line" opts = Except.ok plot_bytes ∧
      ((⟨"text", "Plot generated successfully"⟩,
        ⟨"image", "iVBORw0KGgoAAQACATEBMgEzATQ=", "image/png"⟩) :
          TextContent × ImageContent) =
        (⟨"text", "Plot generated successfully"⟩,
         ⟨"image", b64encode plot_bytes, "image/png"⟩) :=
  generate_plot_success_shape "a,b\n1,2\n3,4" "line" "None" _ (by decide)

/-- C2: when any stage of `generate_plot` fails (options decode, CSV parse,
keyword-argument expansion, or render), the stage's error propagates as the
call's result and no image value is returned at all. -/
theorem generate_plot_propagates_failure (c k o : String) (e : Err)
    (h : firstFailure c k o = some e) :
    Server.generate_plot c k o = Except.error e ∧
    ∀ r, Server.generate_plot c k o ≠ Except.ok r := by
  have hmain : Server.generate_plot c k o = Except.error e := by
    unfold Server.generate_plot
    unfold firstFailure at h
    cases h1 : decodeKwargs o with
    | error e1 => rw [h1] at h; simp at h; rw [exceptBind_error, h]
    | ok kwargs =>
      rw [h1] at h
      simp only [] at h
      rw [exceptBind_ok]
      cases h2 : parseCsv c with
      | error e2 => rw [h2] at h; simp at h; rw [exceptBind_error, h]
      | ok df =>
        rw [h2] at h
        simp only [] at h
        rw [exceptBind_ok]
        cases h3 : expandKwargs kwargs with
        | error e3 => rw [h3] at h; simp at h; rw [exceptBind_error, h]
        | ok opts =>
          rw [h3] at h
          simp only [] at h
          rw [exceptBind_ok]
          cases h4 : plot_to_bytes df k opts with
          | error e4 => rw [h4] at h; simp at h; rw [exceptBind_error, h]
          | ok plot_bytes => rw [h4] at h; simp at h
  exact ⟨hmain, fun r hcontra => by rw [hmain] at hcontra; simp at hcontra⟩

/-- Witness for C2 at a concrete failing call (empty CSV text). -/
theorem generate_plot_propagates_failure_witness :
    Server.generate_plot "" "line" "None" =
      Except.error (Err.malformedInputError "no columns to parse from file") ∧
    ∀ r, Server.generate_plot "" "line" "None" ≠ Except.ok r :=
  generate_plot_propagates_failure "" "line" "None" _ (by decide)

/-- C3 counterexample: the empty options string is not equivalent to the
empty JSON object — it fails JSON decoding while the empty object renders
with defaults. -/
theorem empty_options_counterexample :
    Server.generate_plot "a,b\n1,2" "line" "" ≠
      Server.generate_plot "a,b\n1,2" "line" "\x7b\x7d" := by decide

/-- C3 amended: the options string "None" is equivalent to the empty JSON
options object, but the empty options string is not a sentinel: it is handed
to the JSON decoder and the call fails with `InvalidOptionsError`. -/
theorem none_sentinel_equals_empty_object (c k : String) :
    Server.generate_plot c k "None" = Server.generate_plot c k "\x7b\x7d" ∧
    Server.generate_plot c k "" =
      Except.error (Err.invalidOptionsError "Expecting value") := by
  constructor
  · unfold Server.generate_plot
    rw [show decodeKwargs "None" = Except.ok (Json.obj []) from rfl,
        show decodeKwargs "\x7b\x7d" = Except.ok (Json.obj []) from rfl]
  · unfold Server.generate_plot
    rw [show decodeKwargs "" =
          Except.error (Err.invalidOptionsError "Expecting value") from rfl,
        exceptBind_error]

/-- C4: an options string that is not the "None" sentinel and fails to
decode as JSON makes `generate_plot` fail with `InvalidOptionsError`
carrying the decoder's message, independently of the CSV text and plot
kind — before the CSV is parsed and before any rendering. -/
theorem undecodable_options_fail_first (c k o m : String)
    (hs : o ≠ "None") (hp : jsonLoads o = Except.error m) :
    Server.generate_plot c k o =
      Except.error (Err.invalidOptionsError m) ∧
    ∀ c2 k2 : String, Server.generate_plot c2 k2 o =
      Server.generate_plot c k o := by
  have hd : decodeKwargs o = Except.error (Err.invalidOptionsError m) := by
    unfold decodeKwargs
    rw [if_pos hs, hp]
  have hg : ∀ c' k' : String,
      Server.generate_plot c' k' o =
        Except.error (Err.invalidOptionsError m) := by
    intro c' k'
    unfold Server.generate_plot
    rw [hd, exceptBind_error]
  exact ⟨hg c k, fun c2 k2 => (hg c2 k2).trans (hg c k).symm⟩

/-- Witness for C4 at a concrete undecodable options string. -/
theorem undecodable_options_fail_first_witness :
    Server.generate_plot "a,b\n1,2" "line" "not json" =
      Except.error (Err.invalidOptionsError "Expecting value") ∧
    ∀ c2 k2 : String, Server.generate_plot c2 k2 "not json" =
      Server.generate_plot "a,b\n1,2" "line" "not json" :=
  undecodable_options_fail_first "a,b\n1,2" "line" "not json"
    "Expecting value" (by decide) rfl

/-- C9: the `generate_plot` tools of server.py and cloud.py compute the
same result on every input — same error or same (status message, image)
pair. -/
theorem server_cloud_generate_plot_agree (c k o : String) :
    Server.generate_plot c k o = Cloud.generate_plot c k o := rfl

/-- C5: every plot kind other than exactly "line", "bar", "pie" or
"worldmap" makes the dispatcher fail with `UnsupportedPlotKindError` naming
the received kind value, producing no output. -/
theorem unsupported_kind_fails (t : Table) (opts : List (String × Json))
    (k : String)
    (h : k ∉ (["line", "bar", "pie", "worldmap"] : List String)) :
    plot_to_bytes t k opts =
      Except.error (Err.unsupportedPlotKindError k) := by
  simp only [List.mem_cons, List.not_mem_nil, or_false, not_or] at h
  obtain ⟨h1, h2, h3, h4⟩ := h
  unfold plot_to_bytes
  split
  · exact absurd rfl h1
  · exact absurd rfl h2
  · exact absurd rfl h3
  · exact absurd rfl h4
  · rfl

/-- Witness for C5 at the concrete unsupported kind "scatter". -/
theorem unsupported_kind_fails_witness :
    plot_to_bytes ⟨["a"], [["1"]]⟩ "scatter" [] =
      Except.error (Err.unsupportedPlotKindError "scatter") :=
  unsupported_kind_fails ⟨["a"], [["1"]]⟩ [] "scatter" (by decide)

/-- C6: a CSV text that is empty, or whose header row repeats a column
name, or in which some data row's length disagrees with the header's,
fails the table parse with `MalformedInputError`. -/
theorem malformed_csv_rejected (s : String)
    (h : s = "" ∨
      ∃ hl rs, csvLines s = hl :: rs ∧
        (hasDupStr (csvFields hl) = true ∨
         ∃ r ∈ rs, (csvFields r).length ≠ (csvFields hl).length)) :
    ∃ m, parseCsv s = Except.error (Err.malformedInputError m) := by
  rcases h with rfl | ⟨hl, rs, hlines, hbad⟩
  · exact ⟨"no columns to parse from file", rfl⟩
  · unfold parseCsv
    rw [hlines]
    simp only []
    cases hdup : hasDupStr (csvFields hl) with
    | true => exact ⟨"duplicate column names", rfl⟩
    | false =>
      rcases hbad with hdup2 | ⟨r, hr, hlen⟩
      · exact absurd (hdup.symm.trans hdup2) (by simp)
      · have hall :
            ((rs.map csvFields).all
              (fun row => decide (row.length = (csvFields hl).length))) =
              false := by
          cases hallv : ((rs.map csvFields).all
              (fun row => decide (row.length = (csvFields hl).length))) with
          | false => rfl
          | true =>
            exfalso
            have := List.all_eq_true.mp hallv (csvFields r)
              (List.mem_map_of_mem _ hr)
            exact hlen (of_decide_eq_true this)
        rw [hall]
        exact ⟨"row length does not match header", rfl⟩

/-- Witness for C6 at the concrete empty CSV text. -/
theorem malformed_csv_rejected_witness :
    ∃ m, parseCsv "" = Except.error (Err.malformedInputError m) :=
  malformed_csv_rejected "" (Or.inl rfl)

/-- C10: an options string that decodes as JSON but not to a JSON object
(array, number, string, boolean or null) makes `generate_plot` fail at the
keyword-argument expansion once the CSV has parsed; it never returns a
rendered image, so only a JSON object or the "None" sentinel can lead to a
successful render. -/
theorem non_object_options_fail (c k o : String) (j : Json) (df : Table)
    (hs : o ≠ "None") (hj : jsonLoads o = Except.ok j)
    (hobj : j.isObj = false) (hcsv : parseCsv c = Except.ok df) :
    Server.generate_plot c k o =
      Except.error (Err.kwargsTypeError (jsonPyType j)) ∧
    ∀ r, Server.generate_plot c k o ≠ Except.ok r := by
  have hd : decodeKwargs o = Except.ok j := by
    unfold decodeKwargs
    rw [if_pos hs, hj]
  have hx : expandKwargs j =
      Except.error (Err.kwargsTypeError (jsonPyType j)) := by
    cases j with
    | obj fields => exact absurd hobj (by simp [Json.isObj])
    | null => rfl
    | bool b => rfl
    | num q => rfl
    | str s => rfl
    | arr xs => rfl
  have hmain : Server.generate_plot c k o =
      Except.error (Err.kwargsTypeError (jsonPyType j)) := by
    unfold Server.generate_plot
    rw [hd, exceptBind_ok, hcsv, exceptBind_ok, hx, exceptBind_error]
  exact ⟨hmain, fun r hcontra => by rw [hmain] at hcontra; simp at hcontra⟩

/-- Witness for C10 at a concrete JSON-array options string. -/
theorem non_object_options_fail_witness :
    Server.generate_plot "a,b\n1,2" "line" "[1, 2]" =
      Except.error (Err.kwargsTypeError "list") ∧
    ∀ r, Server.generate_plot "a,b\n1,2" "line" "[1, 2]" ≠ Except.ok r :=
  non_object_options_fail "a,b\n1,2" "line" "[1, 2]"
    (Json.arr [Json.num ⟨1, 1⟩, Json.num ⟨2, 1⟩])
    ⟨["a", "b"], [["1", "2"]]⟩ (by decide) rfl rfl rfl

/-- C7: the world-map renderer resolves coordinate columns by scanning
column names case-insensitively against the latitude alias priority list
and the longitude alias priority list, first match in list order; a
resolved name is an actual column whose lower-cased form is an alias, the
mixed-case pair "Latitude"/"Long" is accepted, and when either list matches
no column the renderer fails with `MissingCoordinateColumnsError`. -/
theorem worldmap_coordinate_resolution (t : Table)
    (opts : List (String × Json))
    (h : findCoord latAliases t.header = none ∨
         findCoord lonAliases t.header = none) :
    renderWorldmap t opts =
      Except.error Err.missingCoordinateColumnsError ∧
    (∀ name, findCoord latAliases t.header = some name →
        name ∈ t.header ∧ lowerStr name ∈ latAliases) ∧
    (∀ name, findCoord lonAliases t.header = some name →
        name ∈ t.header ∧ lowerStr name ∈ lonAliases) ∧
    findCoord latAliases ["Latitude", "Long"] = some "Latitude" ∧
    findCoord lonAliases ["Latitude", "Long"] = some "Long" ∧
    (∃ fig, renderWorldmap ⟨["Latitude", "Long"], [["10", "20"]]⟩ [] =
        Except.ok fig) := by
  have hchar : ∀ (al : List String) (name : String),
      findCoord al t.header = some name →
        name ∈ t.header ∧ lowerStr name ∈ al := by
    intro al name hf
    unfold findCoord at hf
    obtain ⟨a, ha, hfind⟩ := List.exists_of_findSome?_eq_some hf
    refine ⟨List.mem_of_find?_eq_some hfind, ?_⟩
    have hp := (List.find?_eq_some.mp hfind).1
    rw [eq_of_beq hp]
    exact ha
  have hmiss : renderWorldmap t opts =
      Except.error Err.missingCoordinateColumnsError := by
    unfold renderWorldmap
    rcases h with hlat | hlon
    · rw [hlat]
    · cases hx : findCoord latAliases t.header with
      | none => rfl
      | some a => rw [hlon]
  exact ⟨hmiss, hchar latAliases, hchar lonAliases, rfl, rfl, _, rfl⟩

/-- Witness for C7 at a table with no coordinate-like column. -/
theorem worldmap_coordinate_resolution_witness :
    renderWorldmap ⟨["foo"], []⟩ [] =
      Except.error Err.missingCoordinateColumnsError ∧
    (∀ name, findCoord latAliases ["foo"] = some name →
        name ∈ (["foo"] : List String) ∧ lowerStr name ∈ latAliases) ∧
    (∀ name, findCoord lonAliases ["foo"] = some name →
        name ∈ (["foo"] : List String) ∧ lowerStr name ∈ lonAliases) ∧
    findCoord latAliases ["Latitude", "Long"] = some "Latitude" ∧
    findCoord lonAliases ["Latitude", "Long"] = some "Long" ∧
    (∃ fig, renderWorldmap ⟨["Latitude", "Long"], [["10", "20"]]⟩ [] =
        Except.ok fig) :=
  worldmap_coordinate_resolution ⟨["foo"], []⟩ [] (Or.inl rfl)

/-- C8: the pie renderer rejects a resolved value column containing a
non-positive value with `InvalidValueError`, and on an all-positive value
column renders one slice per table row (labels zipped with values). -/
theorem pie_renderer_values (t : Table) (opts : List (String × Json))
    (li vi : Nat)
    (hl : firstColOfType t ColType.text = some li)
    (hv : firstColOfType t ColType.numeric = some vi) :
    ((∃ v ∈ pieValues t vi, v.isPos = false) →
        renderPie t opts =
          Except.error
            (Err.invalidValueError "pie slice values must be positive")) ∧
    ((∀ v ∈ pieValues t vi, v.isPos = true) →
        renderPie t opts =
          Except.ok (Figure.pie ((colCells t li).zip (pieValues t vi))) ∧
        ((colCells t li).zip (pieValues t vi)).length = t.rows.length) := by
  have hred : renderPie t opts =
      (if (pieValues t vi).all Frac.isPos
       then Except.ok (Figure.pie ((colCells t li).zip (pieValues t vi)))
       else Except.error
         (Err.invalidValueError "pie slice values must be positive")) := by
    unfold renderPie
    rw [hl, hv]
  constructor
  · rintro ⟨v, hmem, hneg⟩
    have hallf : (pieValues t vi).all Frac.isPos = false := by
      cases hav : (pieValues t vi).all Frac.isPos with
      | false => rfl
      | true => exact absurd (List.all_eq_true.mp hav v hmem) (by simp [hneg])
    rw [hred, hallf]
    rfl
  · intro hpos
    have hallt : (pieValues t vi).all Frac.isPos = true :=
      List.all_eq_true.mpr hpos
    refine ⟨by rw [hred, hallt]; rfl, ?_⟩
    simp [List.length_zip, pieValues, colCells]

/-- Witness for C8 at a concrete two-column label/value table. -/
theorem pie_renderer_values_witness :
    ((∃ v ∈ pieValues ⟨["label", "val"], [["apple", "3"], ["pear", "2"]]⟩ 1,
        v.isPos = false) →
      renderPie ⟨["label", "val"], [["apple", "3"], ["pear", "2"]]⟩ [] =
        Except.error
          (Err.invalidValueError "pie slice values must be positive")) ∧
    ((∀ v ∈ pieValues ⟨["label", "val"], [["apple", "3"], ["pear", "2"]]⟩ 1,
        v.isPos = true) →
      renderPie ⟨["label", "val"], [["apple", "3"], ["pear", "2"]]⟩ [] =
        Except.ok (Figure.pie
          ((colCells ⟨["label", "val"], [["apple", "3"], ["pear", "2"]]⟩ 0).zip
            (pieValues ⟨["label", "val"], [["apple", "3"], ["pear", "2"]]⟩ 1))) ∧
      ((colCells ⟨["label", "val"], [["apple", "3"], ["pear", "2"]]⟩ 0).zip
          (pieValues ⟨["label", "val"], [["apple", "3"], ["pear", "2"]]⟩ 1)).length =
        (Table.mk ["label", "val"] [["apple", "3"], ["pear", "2"]]).rows.length) :=
  pie_renderer_values ⟨["label", "val"], [["apple", "3"], ["pear", "2"]]⟩ []
    0 1 rfl rfl

end PlottingMcp
